import Mathlib

/-!
Verification development for the `ha-mqtt-discoverable` repository, centred on
the MediaPlayer entity: topic derivation, discovery-config generation, command
dispatch and state publishing, as implemented in
`src/ha_mqtt_discoverable/media_player.py` (the live variant, imported by the
test suite) and the merge-conflict variant in
`src/ha_mqtt_discoverable/sensors.py`.
-/

namespace HaMqtt

/-! ## Fixed topic-role tables (media_player.py, `MediaPlayerTopics`,
`COMMAND_TOPICS`, `_SIMPLE_COMMANDS`) -/

/-- The 16 command topic keys, in the order `_generate_topics` iterates them
(`command_topic_keys`, media_player.py lines 232-249). -/
def commandTopicKeys : List String :=
  ["play", "pause", "stop", "next_track", "previous_track", "volume_set",
   "seek", "volume_mute", "shuffle_set", "repeat_set", "select_source",
   "select_sound_mode", "turn_on", "turn_off", "play_media", "browse_media"]

/-- The 10 state topic keys that `_generate_topics` always emits
(media_player.py lines 256-265), in source order. -/
def stateTopicKeys : List String :=
  ["state", "title", "artist", "album", "duration", "position", "volume",
   "albumart", "media_image_remotely_accessible", "availability"]

/-- `_SIMPLE_COMMANDS`: commands dispatched without payload parsing. -/
def simpleCommands : List String :=
  ["play", "pause", "stop", "next_track", "previous_track", "turn_on",
   "turn_off", "browse_media"]

/-! ## Entity descriptors -/

/-- The slice of `DeviceInfo` the topic deriver reads: the device name. -/
structure DeviceInfo where
  name : String
deriving DecidableEq

/-- The slice of `MediaPlayerInfo` (media_player.py lines 135-155) that the
topic deriver reads: entity name and optional owning device. -/
structure MediaPlayerInfo where
  name : String
  device : Option DeviceInfo := none
deriving DecidableEq

/-- `MediaPlayerInfo.component` is the fixed string "media_player". -/
def MediaPlayerInfo.component (_ : MediaPlayerInfo) : String := "media_player"

/-- Modelled from the spec: the repository's `ha_mqtt_discoverable.utils.clean_string`
is not under `src/`. Per the spec's cleaning rule, it lowercases and replaces
whitespace and other non-identifier separators with a dash (and is idempotent);
the test suite confirms "Test Device" cleans to "test-device". -/
def clean_string (s : String) : String :=
  String.mk (s.data.map (fun c => if c.isAlphanum || c = '_' then c.toLower else '-'))

/-! ## Topic derivation (`MediaPlayer._generate_topics`, media_player.py 206-271) -/

/-- The base entity topic `component[/cleaned(deviceName)]/cleaned(entityName)`
(media_player.py lines 215-219). -/
def entityTopic (e : MediaPlayerInfo) : String :=
  e.component
    ++ (match e.device with
        | some d => "/" ++ clean_string d.name
        | none => "")
    ++ "/" ++ clean_string e.name

/-- The full topic string for one role key:
`state_prefix ++ "/" ++ entity_topic ++ "/" ++ topic_key`. -/
def topicFor (pfx : String) (e : MediaPlayerInfo) (key : String) : String :=
  pfx ++ "/" ++ entityTopic e ++ "/" ++ key

/-- `MediaPlayer._generate_topics`: command topics are emitted for exactly the
registered callback keys (`generate_topic`, guarded by membership in
`self._callbacks`), then the 10 state topics are always emitted. The Python
dict is modelled as an association list in insertion order; `callbacks` is the
key set of the callbacks dict. -/
def generate_topics (pfx : String) (e : MediaPlayerInfo) (callbacks : List String) :
    List (String × String) :=
  (commandTopicKeys.filter (fun k => decide (k ∈ callbacks))).map
      (fun k => (k, topicFor pfx e k))
    ++ stateTopicKeys.map (fun k => (k, topicFor pfx e k))

/-! ## Association-list helpers (Python dict reads) -/

/-- The keys of a topic dict, in insertion order. -/
def keysOf (t : List (String × String)) : List String := t.map Prod.fst

/-- First-match lookup, modelling Python dict indexing on our unique-key lists. -/
def lookupKey (k : String) : List (String × String) → Option String
  | [] => none
  | (k2, v) :: rest => if k2 = k then some v else lookupKey k rest

/-- `self._topics[key]`: the state-role keys are always present in any dict
produced by `generate_topics`, so the fallback is never taken on those reads. -/
def getTopic (t : List (String × String)) (k : String) : String :=
  (lookupKey k t).getD ""

/-! ## Discovery config (`MediaPlayer.generate_config`, media_player.py 482-551) -/

/-- The fixed metadata role-to-discovery-key table (media_player.py 510-519). -/
def metadataConfigPairs : List (String × String) :=
  [("title", "media_title_topic"), ("artist", "media_artist_topic"),
   ("album", "media_album_name_topic"), ("duration", "media_duration_topic"),
   ("position", "media_position_topic"), ("volume", "volume_level_topic"),
   ("albumart", "media_image_url_topic"),
   ("media_image_remotely_accessible", "media_image_remotely_accessible_topic")]

/-- The fixed command role-to-discovery-key table (media_player.py 524-541). -/
def commandConfigPairs : List (String × String) :=
  [("play", "play_topic"), ("pause", "pause_topic"), ("stop", "stop_topic"),
   ("next_track", "next_track_topic"), ("previous_track", "previous_track_topic"),
   ("volume_set", "volume_set_topic"), ("seek", "seek_topic"),
   ("volume_mute", "volume_mute_topic"), ("shuffle_set", "shuffle_set_topic"),
   ("repeat_set", "repeat_set_topic"), ("select_source", "select_source_topic"),
   ("select_sound_mode", "select_sound_mode_topic"), ("turn_on", "turn_on_topic"),
   ("turn_off", "turn_off_topic"), ("play_media", "play_media_topic"),
   ("browse_media", "browse_media_topic")]

/-- `add_topic` (media_player.py 493-499): emit the discovery key bound to the
topic's URL iff the topic-role key is present in `self._topics`. -/
def addTopic (t : List (String × String)) (topicKey configKey : String) :
    List (String × String) :=
  match lookupKey topicKey t with
  | some url => [(configKey, url)]
  | none => []

/-- The availability block (media_player.py 504-507): availability topic plus
the two fixed payload strings, all guarded by presence of the availability role. -/
def availabilityConfig (t : List (String × String)) : List (String × String) :=
  match lookupKey "availability" t with
  | some url =>
      [("availability_topic", url), ("payload_available", "online"),
       ("payload_not_available", "offline")]
  | none => []

/-- The `topics` dict assembled by `generate_config` (the part merged over the
base config): state topic, availability block, metadata topics, command topics,
in source order. -/
def config_topics (t : List (String × String)) : List (String × String) :=
  addTopic t "state" "state_topic"
    ++ availabilityConfig t
    ++ metadataConfigPairs.flatMap (fun p => addTopic t p.1 p.2)
    ++ commandConfigPairs.flatMap (fun p => addTopic t p.1 p.2)

/-! ## State publishing (`MediaPlayer.set_*`, media_player.py 275-362) -/

/-- The two Python exception kinds the setters raise: `ValueError` for a bad
value, `RuntimeError` for an unsupported capability. -/
inductive SetError where
  | valueError (msg : String)
  | runtimeError (msg : String)
deriving DecidableEq

/-- One outbound MQTT publish. -/
structure Publish where
  topic : String
  payload : String
  retain : Bool
deriving DecidableEq

/-- Modelled from the spec: `Discoverable._state_helper` lives in
`ha_mqtt_discoverable/__init__.py`, which is not under `src/`. Per the spec it
publishes the stringified value to the given topic with the retain flag set. -/
def state_helper (value : String) (topic : String) : Publish :=
  { topic := topic, payload := value, retain := true }

/-- `set_volume` (media_player.py 299-305): reject volume outside [0, 1],
otherwise publish `str(volume)` to the volume topic. Python floats are
modelled as rationals (finite-float comparison against 0.0 and 1.0 is exact);
`fstr` abstracts Python's `str` on floats. -/
def set_volume (fstr : ℚ → String) (t : List (String × String)) (volume : ℚ) :
    Except SetError Publish :=
  if ¬ (0 ≤ volume ∧ volume ≤ 1) then
    .error (.valueError "Volume must be between 0.0 and 1.0")
  else
    .ok (state_helper (fstr volume) (getTopic t "volume"))

/-- `set_position` (media_player.py 307-313): reject a negative position,
otherwise publish `str(position)`. No other check is performed; this variant
of the class stores no duration, so none is available to compare against. -/
def set_position (t : List (String × String)) (position : Int) :
    Except SetError Publish :=
  if position < 0 then
    .error (.valueError "Position must be non-negative")
  else
    .ok (state_helper (toString position) (getTopic t "position"))

/-- `set_duration` (media_player.py 315-321): reject a negative duration,
otherwise publish `str(duration)`. The value is not stored on the instance. -/
def set_duration (t : List (String × String)) (duration : Int) :
    Except SetError Publish :=
  if duration < 0 then
    .error (.valueError "Duration must be non-negative")
  else
    .ok (state_helper (toString duration) (getTopic t "duration"))

/-- `set_muted` (media_player.py 334-338): logs and returns; no publish and no
error path at all. -/
def set_muted (_muted : Bool) : List Publish := []

/-- `set_shuffle` (media_player.py 340-345): `RuntimeError` when the
`shuffle_set` topic was never derived; otherwise logs and returns without
publishing. -/
def set_shuffle (t : List (String × String)) (_shuffle : Bool) :
    Except SetError (List Publish) :=
  if "shuffle_set" ∉ keysOf t then
    .error (.runtimeError "Player does not support shuffle control")
  else
    .ok []

/-- `set_repeat` (media_player.py 347-356): `RuntimeError` when the
`repeat_set` topic was never derived, then `ValueError` for a mode outside
`{off, all, one}`; otherwise logs and returns without publishing. -/
def set_repeat (t : List (String × String)) (r : String) :
    Except SetError (List Publish) :=
  if "repeat_set" ∉ keysOf t then
    .error (.runtimeError "Player does not support repeat control")
  else if r ∉ (["off", "all", "one"] : List String) then
    .error (.valueError "Invalid repeat mode")
  else
    .ok []

/-- The publishes performed by a setter call, an error producing none. -/
def publishesOf : Except SetError (List Publish) → List Publish
  | .ok l => l
  | .error _ => []

/-! ## Command dispatch (`_command_callback_handler` and
`_parse_command_payload`, media_player.py 399-480) -/

/-- `RepeatMode` (media_player.py 16-20). -/
inductive RepeatMode where
  | off
  | all
  | one
deriving DecidableEq

/-- `RepeatMode(payload)`: the enum constructor accepts exactly the three
member values and raises `ValueError` otherwise (modelled as `none`). -/
def RepeatMode.ofString (s : String) : Option RepeatMode :=
  if s = "off" then some .off
  else if s = "all" then some .all
  else if s = "one" then some .one
  else none

/-- `PlayMediaPayload` (media_player.py 23-28). -/
structure PlayMediaPayload where
  media_type : String
  media_id : String
  enqueue : Option String := none
  announce : Option Bool := none
deriving DecidableEq

/-- The value handed to a payload-based callback as its first argument.
`floatVal none` and `repeatVal none` / `mediaVal none` are the Python `None`
passed through after a failed parse. -/
inductive ParsedPayload where
  | floatVal (x : Option ℚ)
  | boolVal (b : Bool)
  | repeatVal (m : Option RepeatMode)
  | mediaVal (m : Option PlayMediaPayload)
  | strVal (s : String)
deriving DecidableEq

/-- ASCII uppercase of a string, modelling Python `str.upper()` on the
payloads at hand. -/
def toUpperStr (s : String) : String := String.mk (s.data.map Char.toUpper)

/-- `_parse_command_payload` (media_player.py 435-480): float for
`volume_set`/`seek` (parse failure gives `None`), `payload.upper() == "ON"` for
`shuffle_set`/`volume_mute`, the closed enum for `repeat_set` (failure gives
`None`), JSON shape for `play_media` (failure gives `None`), and the raw
string for everything else. `pf` abstracts Python `float(...)` and `pm` the
pydantic JSON validation, both external to this repository. -/
def parse_command_payload (pf : String → Option ℚ)
    (pm : String → Option PlayMediaPayload) (command payload : String) :
    ParsedPayload :=
  if command = "volume_set" ∨ command = "seek" then
    .floatVal (pf payload)
  else if command = "shuffle_set" ∨ command = "volume_mute" then
    .boolVal (toUpperStr payload == "ON")
  else if command = "repeat_set" then
    .repeatVal (RepeatMode.ofString payload)
  else if command = "play_media" then
    .mediaVal (pm payload)
  else
    .strVal payload

/-- `topic.split("/")[-1]` (media_player.py 412): the text after the final
slash, or the whole topic when it has none. -/
def lastSegment (topic : String) : String :=
  String.mk (((topic.data.reverse).takeWhile (fun c => c ≠ '/')).reverse)

/-- How an application callback was invoked: simple commands receive only the
transport context, payload commands additionally receive the parsed payload. -/
inductive Invocation where
  | simple
  | withPayload (p : ParsedPayload)
deriving DecidableEq

/-- An application callback: it may raise (`.error`), which the dispatcher
must catch. -/
def Handler : Type := Invocation → Except String Unit

/-- The observable outcome of one `_command_callback_handler` run. The
function is total: every inbound message maps to one of these, so no exception
ever propagates to the transport callback. -/
inductive DispatchResult where
  | decodeError
  | noCallback (command : String)
  | invoked (command : String) (inv : Invocation)
  | handlerFailed (command : String) (inv : Invocation) (err : String)
deriving DecidableEq

/-- `_command_callback_handler` (media_player.py 399-433): decode failure →
log and return; no registered callback → warn and return; simple commands get
the raw transport context; payload commands get the parsed payload; a callback
exception is caught and logged. `decodedPayload = none` models a
`UnicodeDecodeError` from `message.payload.decode()`. -/
def command_callback_handler (pf : String → Option ℚ)
    (pm : String → Option PlayMediaPayload)
    (callbacks : String → Option Handler)
    (topic : String) (decodedPayload : Option String) : DispatchResult :=
  match decodedPayload with
  | none => .decodeError
  | some payload =>
    let command := lastSegment topic
    match callbacks command with
    | none => .noCallback command
    | some cb =>
      if simpleCommands.contains command then
        match cb .simple with
        | .ok _ => .invoked command .simple
        | .error e => .handlerFailed command .simple e
      else
        let parsed := parse_command_payload pf pm command payload
        match cb (.withPayload parsed) with
        | .ok _ => .invoked command (.withPayload parsed)
        | .error e => .handlerFailed command (.withPayload parsed) e

/-- Whether the registered handler was actually called during dispatch. -/
def handlerWasInvoked : DispatchResult → Bool
  | .invoked _ _ => true
  | .handlerFailed _ _ _ => true
  | _ => false

/-- The invocation the handler received, when it was called. -/
def invocationOf : DispatchResult → Option Invocation
  | .invoked _ inv => some inv
  | .handlerFailed _ inv _ => some inv
  | _ => none

/-- A callbacks dict holding a single registered command. -/
def singleCallback (key : String) (h : Handler) : String → Option Handler :=
  fun c => if c = key then some h else none

/-! ## The merge-conflict variant (`sensors.py`, `MediaPlayer._generate_topics`,
lines 944-1003): capabilities are `supports_*` boolean flags and the command
topic suffixes differ from the media_player.py role strings. -/

/-- The flag slice of the sensors.py `MediaPlayerInfo` (lines 876-928) read by
its `_generate_topics`, plus name and device. -/
structure SensorsMediaPlayerInfo where
  name : String
  device : Option DeviceInfo := none
  supports_play : Bool := false
  supports_pause : Bool := false
  supports_stop : Bool := false
  supports_next_track : Bool := false
  supports_previous_track : Bool := false
  supports_volume_set : Bool := false
  supports_seek : Bool := false
  supports_volume_mute : Bool := false
  supports_shuffle_set : Bool := false
  supports_repeat_set : Bool := false
  supports_select_source : Bool := false
  supports_select_sound_mode : Bool := false
  supports_turn_on : Bool := false
  supports_turn_off : Bool := false
  supports_play_media : Bool := false
  supports_browse_media : Bool := false
deriving DecidableEq

/-- The sensors.py base entity topic (lines 952-956): the device segment is
`clean_string(device.name).lower()`. -/
def sensorsEntityTopic (e : SensorsMediaPlayerInfo) : String :=
  "media_player"
    ++ (match e.device with
        | some d => "/" ++ (clean_string d.name).toLower
        | none => "")
    ++ "/" ++ clean_string e.name

/-- The full sensors-variant topic string for one suffix. -/
def sensorsTopicFor (pfx : String) (e : SensorsMediaPlayerInfo) (key : String) :
    String :=
  pfx ++ "/" ++ sensorsEntityTopic e ++ "/" ++ key

/-- The guarded command entries of sensors.py lines 961-992, as
(flag, dict-key-and-suffix) pairs in source order. Note the abbreviated
suffixes: `next`, `previous`, `volumeset`, `mute`, `shuffle`, `repeat`,
`source`, `sound_mode`. -/
def sensorsCommandFlags (e : SensorsMediaPlayerInfo) : List (Bool × String) :=
  [(e.supports_play, "play"), (e.supports_pause, "pause"),
   (e.supports_stop, "stop"), (e.supports_next_track, "next"),
   (e.supports_previous_track, "previous"), (e.supports_volume_set, "volumeset"),
   (e.supports_seek, "seek"), (e.supports_volume_mute, "mute"),
   (e.supports_shuffle_set, "shuffle"), (e.supports_repeat_set, "repeat"),
   (e.supports_select_source, "source"),
   (e.supports_select_sound_mode, "sound_mode"), (e.supports_turn_on, "turn_on"),
   (e.supports_turn_off, "turn_off"), (e.supports_play_media, "play_media"),
   (e.supports_browse_media, "browse_media")]

/-- The 9 state topic keys the sensors variant always emits (lines 995-1003);
there is no `media_image_remotely_accessible` topic in this variant. -/
def sensorsStateKeys : List String :=
  ["state", "title", "artist", "album", "duration", "position", "volume",
   "albumart", "availability"]

/-- The sensors.py `_generate_topics` (lines 944-1003): each `if supports_x`
block appends its entry in source order, then the state topics follow. -/
def sensors_generate_topics (pfx : String) (e : SensorsMediaPlayerInfo) :
    List (String × String) :=
  ((sensorsCommandFlags e).filter (fun p => p.1)).map
      (fun p => (p.2, sensorsTopicFor pfx e p.2))
    ++ sensorsStateKeys.map (fun k => (k, sensorsTopicFor pfx e k))

/-- A sensors-variant player named "p" supporting only next-track, used to
exhibit the abbreviated `next` suffix. -/
def sensorsNextOnly : SensorsMediaPlayerInfo :=
  { name := "p", supports_next_track := true }

/-- The full set of role strings (dict key = topic suffix) the sensors.py
variant can emit: its 16 command suffixes followed by its 9 state keys. -/
def sensorsRoleKeys : List String :=
  ["play", "pause", "stop", "next", "previous", "volumeset", "seek", "mute",
   "shuffle", "repeat", "source", "sound_mode", "turn_on", "turn_off",
   "play_media", "browse_media"] ++ sensorsStateKeys

/-- Spec-side definition, for comparison with the code: a payload
"case-insensitively equals" a token when uppercasing both gives the same
string. -/
def eqCaseInsensitive (a b : String) : Bool := toUpperStr a == toUpperStr b

deriving instance DecidableEq for Except

/-! ## Helper lemmas -/

theorem keysOf_append (a b : List (String × String)) :
    keysOf (a ++ b) = keysOf a ++ keysOf b := by
  simp [keysOf]

theorem keysOf_map_pair (l : List String) (g : String → String) :
    keysOf (l.map (fun k => (k, g k))) = l := by
  induction l with
  | nil => rfl
  | cons h t ih => simp [keysOf] at ih ⊢; exact ih

theorem mem_keysOf_generate_topics (pfx : String) (e : MediaPlayerInfo)
    (C : List String) (k : String) :
    k ∈ keysOf (generate_topics pfx e C) ↔
      (k ∈ commandTopicKeys ∧ k ∈ C) ∨ k ∈ stateTopicKeys := by
  unfold generate_topics
  rw [keysOf_append, keysOf_map_pair, keysOf_map_pair]
  simp [List.mem_filter]

theorem state_not_command (k : String) (hk : k ∈ stateTopicKeys) :
    k ∉ commandTopicKeys := by
  fin_cases hk <;> decide

theorem lookupKey_isSome_iff (t : List (String × String)) (k : String) :
    (lookupKey k t).isSome = true ↔ k ∈ keysOf t := by
  induction t with
  | nil => simp [lookupKey, keysOf]
  | cons hd tl ih =>
    rcases hd with ⟨k2, v⟩
    by_cases h : k2 = k
    · subst h; simp [lookupKey, keysOf]
    · simp [lookupKey, keysOf, h, ih, Ne.symm h]

theorem mem_keysOf_addTopic (t : List (String × String)) (r c k : String) :
    k ∈ keysOf (addTopic t r c) ↔ k = c ∧ r ∈ keysOf t := by
  unfold addTopic
  rcases h : lookupKey r t with _ | v
  · have hr : r ∉ keysOf t := by
      rw [← lookupKey_isSome_iff, h]; simp
    constructor
    · intro hk
      simp [keysOf] at hk
    · rintro ⟨_, hr2⟩
      exact absurd hr2 hr
  · have hr : r ∈ keysOf t := by
      rw [← lookupKey_isSome_iff, h]; rfl
    constructor
    · intro hk
      simp [keysOf] at hk
      exact ⟨hk, hr⟩
    · rintro ⟨rfl, _⟩
      simp [keysOf]

theorem mem_keysOf_availabilityConfig (t : List (String × String)) (k : String) :
    k ∈ keysOf (availabilityConfig t) ↔
      (k = "availability_topic" ∨ k = "payload_available" ∨
        k = "payload_not_available") ∧ "availability" ∈ keysOf t := by
  unfold availabilityConfig
  rcases h : lookupKey "availability" t with _ | v
  · have hr : "availability" ∉ keysOf t := by
      rw [← lookupKey_isSome_iff, h]; simp
    constructor
    · intro hk
      simp [keysOf] at hk
    · rintro ⟨_, hr2⟩
      exact absurd hr2 hr
  · have hr : "availability" ∈ keysOf t := by
      rw [← lookupKey_isSome_iff, h]; rfl
    constructor
    · intro hk
      simp [keysOf] at hk
      exact ⟨hk, hr⟩
    · rintro ⟨hk, _⟩
      simp [keysOf, hk]

theorem keysOf_flatMap (l : List (String × String))
    (f : String × String → List (String × String)) :
    keysOf (l.flatMap f) = l.flatMap (fun p => keysOf (f p)) := by
  induction l with
  | nil => rfl
  | cons hd tl ih => simp [keysOf] at ih ⊢; exact ih

theorem mem_keysOf_pairs_flatMap (pairs t : List (String × String)) (k : String) :
    k ∈ keysOf (pairs.flatMap (fun p => addTopic t p.1 p.2)) ↔
      ∃ p ∈ pairs, k = p.2 ∧ p.1 ∈ keysOf t := by
  rw [keysOf_flatMap]
  simp only [List.mem_flatMap, mem_keysOf_addTopic]

theorem mem_keysOf_config_topics (t : List (String × String)) (k : String) :
    k ∈ keysOf (config_topics t) ↔
      (k = "state_topic" ∧ "state" ∈ keysOf t) ∨
      ((k = "availability_topic" ∨ k = "payload_available" ∨
          k = "payload_not_available") ∧ "availability" ∈ keysOf t) ∨
      (∃ p ∈ metadataConfigPairs, k = p.2 ∧ p.1 ∈ keysOf t) ∨
      (∃ p ∈ commandConfigPairs, k = p.2 ∧ p.1 ∈ keysOf t) := by
  unfold config_topics
  rw [keysOf_append, keysOf_append, keysOf_append]
  simp only [List.mem_append, mem_keysOf_addTopic, mem_keysOf_availabilityConfig,
    mem_keysOf_pairs_flatMap]
  constructor
  · rintro (((h | h) | h) | h)
    · exact Or.inl h
    · exact Or.inr (Or.inl h)
    · exact Or.inr (Or.inr (Or.inl h))
    · exact Or.inr (Or.inr (Or.inr h))
  · rintro (h | h | h | h)
    · exact Or.inl (Or.inl (Or.inl h))
    · exact Or.inl (Or.inl (Or.inr h))
    · exact Or.inl (Or.inr h)
    · exact Or.inr h

/-! ## Claim theorems -/

/-- C1: for every set C of registered command callbacks drawn from the 16
fixed command keys, the topic dict derived at construction contains all 10
fixed state-role keys, and the command-role keys it contains are exactly C. -/
theorem claim_C1_topic_set (pfx : String) (e : MediaPlayerInfo) (C : List String)
    (hC : ∀ c ∈ C, c ∈ commandTopicKeys) :
    (∀ s ∈ stateTopicKeys, s ∈ keysOf (generate_topics pfx e C)) ∧
    (∀ k, (k ∈ keysOf (generate_topics pfx e C) ∧ k ∈ commandTopicKeys) ↔ k ∈ C) := by
  constructor
  · intro s hs
    rw [mem_keysOf_generate_topics]
    exact Or.inr hs
  · intro k
    constructor
    · rintro ⟨hk, hcmd⟩
      rw [mem_keysOf_generate_topics] at hk
      rcases hk with ⟨_, hkC⟩ | hst
      · exact hkC
      · exact absurd hcmd (state_not_command k hst)
    · intro hkC
      exact ⟨by rw [mem_keysOf_generate_topics]; exact Or.inl ⟨hC k hkC, hkC⟩,
             hC k hkC⟩

/-- Witness for C1 at a concrete player with only a play callback. -/
theorem claim_C1_witness :
    ("state" ∈ keysOf (generate_topics "hmd" ⟨"p", none⟩ ["play"])) ∧
    (("play" ∈ keysOf (generate_topics "hmd" ⟨"p", none⟩ ["play"]) ∧
        "play" ∈ commandTopicKeys) ↔ "play" ∈ (["play"] : List String)) := by
  have h := claim_C1_topic_set "hmd" ⟨"p", none⟩ ["play"] (by decide)
  exact ⟨h.1 "state" (by decide), h.2 "play"⟩

/-- C2: for any topic dict, `generate_config` emits the discovery key of a
command role (per the fixed role-to-key table) iff that role is present in
the dict; no command discovery key appears whose role is absent. -/
theorem claim_C2_config_keys (t : List (String × String)) (role dkey : String)
    (hmem : (role, dkey) ∈ commandConfigPairs) :
    dkey ∈ keysOf (config_topics t) ↔ role ∈ keysOf t := by
  have hA : ∀ p ∈ commandConfigPairs, p.2 ≠ "state_topic" ∧
      p.2 ≠ "availability_topic" ∧ p.2 ≠ "payload_available" ∧
      p.2 ≠ "payload_not_available" := by decide
  have hB : ∀ p ∈ commandConfigPairs, ∀ q ∈ metadataConfigPairs, p.2 ≠ q.2 := by
    decide
  have hU : ∀ p ∈ commandConfigPairs, ∀ q ∈ commandConfigPairs,
      p.2 = q.2 → p.1 = q.1 := by decide
  rw [mem_keysOf_config_topics]
  constructor
  · rintro (⟨hk, _⟩ | ⟨hk, _⟩ | ⟨q, hq, hk, _⟩ | ⟨q, hq, hk, hq1⟩)
    · exact absurd hk (hA _ hmem).1
    · rcases hk with hk | hk | hk
      · exact absurd hk (hA _ hmem).2.1
      · exact absurd hk (hA _ hmem).2.2.1
      · exact absurd hk (hA _ hmem).2.2.2
    · exact absurd hk (hB _ hmem _ hq)
    · have h1 : role = q.1 := hU (role, dkey) hmem q hq hk
      rw [h1]
      exact hq1
  · intro hrole
    exact Or.inr (Or.inr (Or.inr ⟨(role, dkey), hmem, rfl, hrole⟩))

/-- Witness for C2 at the volume_set role on a one-entry topic dict. -/
theorem claim_C2_witness :
    "volume_set_topic" ∈ keysOf (config_topics [("volume_set", "X")]) ↔
      "volume_set" ∈ keysOf [("volume_set", "X")] :=
  claim_C2_config_keys [("volume_set", "X")] "volume_set" "volume_set_topic"
    (by decide)

/-- Every second component of the sensors command-flag table is one of the
sensors role strings, for any flag values. -/
theorem sensorsCommandFlags_snd_mem (e : SensorsMediaPlayerInfo)
    (p : Bool × String) (hp : p ∈ sensorsCommandFlags e) :
    p.2 ∈ sensorsRoleKeys := by
  have hmap : p.2 ∈ (sensorsCommandFlags e).map Prod.snd :=
    List.mem_map.2 ⟨p, hp, rfl⟩
  have heq : (sensorsCommandFlags e).map Prod.snd =
      ["play", "pause", "stop", "next", "previous", "volumeset", "seek", "mute",
       "shuffle", "repeat", "source", "sound_mode", "turn_on", "turn_off",
       "play_media", "browse_media"] := rfl
  rw [heq] at hmap
  unfold sensorsRoleKeys
  exact List.mem_append_left _ hmap

/-- C3 (counterexample to the claim as stated): the sensors.py merge-conflict
variant derives, for a next-track-capable player, the topic
"hmd/media_player/p/next"; its role suffix `next` is not one of the fixed
role strings, and the topic string is not the base path followed by any fixed
role string. -/
theorem claim_C3_counterexample :
    ((sensors_generate_topics "hmd" sensorsNextOnly).contains
        ("next", "hmd/media_player/p/next")
      && !((commandTopicKeys ++ stateTopicKeys).contains "next")
      && ((commandTopicKeys ++ stateTopicKeys).all
            (fun r => !("hmd/media_player/p/next" ==
                          "hmd/media_player/p/" ++ r)))) = true := by
  decide

/-- C3 (amended): every topic derived by the media_player.py variant is
exactly statePrefix/component[/cleanedDeviceName]/cleanedEntityName/roleSuffix
with roleSuffix drawn from its fixed 26 role strings; the sensors.py
merge-conflict variant keeps the same path shape but draws its suffixes from
its own role list, which abbreviates several command roles (next, previous,
volumeset, mute, shuffle, repeat, source, sound_mode). -/
theorem claim_C3_amended_topic_shape :
    (∀ e : MediaPlayerInfo, entityTopic e =
        "media_player"
          ++ (match e.device with
              | some d => "/" ++ clean_string d.name
              | none => "")
          ++ "/" ++ clean_string e.name) ∧
    (∀ (pfx : String) (e : MediaPlayerInfo) (C : List String)
        (kv : String × String), kv ∈ generate_topics pfx e C →
      kv.2 = pfx ++ "/" ++ entityTopic e ++ "/" ++ kv.1 ∧
        kv.1 ∈ commandTopicKeys ++ stateTopicKeys) ∧
    (∀ e : SensorsMediaPlayerInfo, sensorsEntityTopic e =
        "media_player"
          ++ (match e.device with
              | some d => "/" ++ (clean_string d.name).toLower
              | none => "")
          ++ "/" ++ clean_string e.name) ∧
    (∀ (pfx : String) (e : SensorsMediaPlayerInfo) (kv : String × String),
        kv ∈ sensors_generate_topics pfx e →
      kv.2 = pfx ++ "/" ++ sensorsEntityTopic e ++ "/" ++ kv.1 ∧
        kv.1 ∈ sensorsRoleKeys) := by
  refine ⟨fun e => rfl, ?_, fun e => rfl, ?_⟩
  · intro pfx e C kv hkv
    unfold generate_topics at hkv
    rcases List.mem_append.1 hkv with hkv | hkv
    · rcases List.mem_map.1 hkv with ⟨k, hk, rfl⟩
      exact ⟨rfl, List.mem_append_left _ (List.mem_filter.1 hk).1⟩
    · rcases List.mem_map.1 hkv with ⟨k, hk, rfl⟩
      exact ⟨rfl, List.mem_append_right _ hk⟩
  · intro pfx e kv hkv
    unfold sensors_generate_topics at hkv
    rcases List.mem_append.1 hkv with hkv | hkv
    · rcases List.mem_map.1 hkv with ⟨p, hp, rfl⟩
      exact ⟨rfl, sensorsCommandFlags_snd_mem e p (List.mem_filter.1 hp).1⟩
    · rcases List.mem_map.1 hkv with ⟨k, hk, rfl⟩
      refine ⟨rfl, ?_⟩
      unfold sensorsRoleKeys
      exact List.mem_append_right _ hk

/-- Witness for C3's amended theorem at one concrete topic of each variant. -/
theorem claim_C3_witness :
    ((("play", "hmd/media_player/p/play") : String × String).2 =
        "hmd" ++ "/" ++ entityTopic ⟨"p", none⟩ ++ "/" ++ "play" ∧
      "play" ∈ commandTopicKeys ++ stateTopicKeys) ∧
    ((("next", "hmd/media_player/p/next") : String × String).2 =
        "hmd" ++ "/" ++ sensorsEntityTopic sensorsNextOnly ++ "/" ++ "next" ∧
      "next" ∈ sensorsRoleKeys) :=
  ⟨claim_C3_amended_topic_shape.2.1 "hmd" ⟨"p", none⟩ ["play"]
      ("play", "hmd/media_player/p/play") (by decide),
   claim_C3_amended_topic_shape.2.2.2 "hmd" sensorsNextOnly
      ("next", "hmd/media_player/p/next") (by decide)⟩

/-- C4 (counterexample to the claim as stated): on a repeat_set message with
the invalid payload "bogus", the registered handler IS invoked (the message is
not dropped), the failed enum parse having produced `None`. -/
theorem claim_C4_counterexample :
    handlerWasInvoked (command_callback_handler (fun _ => none) (fun _ => none)
        (singleCallback "repeat_set" (fun _ => Except.ok ()))
        "hmd/media_player/p/repeat_set" (some "bogus")) = true ∧
    RepeatMode.ofString "bogus" = none := by
  exact ⟨by decide, rfl⟩

/-- C4 (amended): for every inbound repeat_set message whose payload is not
one of {off, all, one}, the enum parse fails, is logged, and yields `None`;
the registered repeat_set handler is then invoked with `None` as its parsed
payload rather than the message being dropped. -/
theorem claim_C4_amended_invoked_with_none (pf : String → Option ℚ)
    (pm : String → Option PlayMediaPayload) (s : String) (h : Handler)
    (hs : s ∉ (["off", "all", "one"] : List String)) :
    RepeatMode.ofString s = none ∧
    invocationOf (command_callback_handler pf pm (singleCallback "repeat_set" h)
        "hmd/media_player/p/repeat_set" (some s)) =
      some (.withPayload (.repeatVal none)) := by
  simp only [List.mem_cons, List.not_mem_nil, or_false, not_or] at hs
  have hnone : RepeatMode.ofString s = none := by
    unfold RepeatMode.ofString
    rw [if_neg hs.1, if_neg hs.2.1, if_neg hs.2.2]
  refine ⟨hnone, ?_⟩
  have hparse : parse_command_payload pf pm "repeat_set" s = .repeatVal none := by
    unfold parse_command_payload
    rw [if_neg (by decide), if_neg (by decide), if_pos rfl, hnone]
  have e1 : command_callback_handler pf pm (singleCallback "repeat_set" h)
      "hmd/media_player/p/repeat_set" (some s) =
      (match h (.withPayload (parse_command_payload pf pm "repeat_set" s)) with
       | .ok _ => .invoked "repeat_set"
            (.withPayload (parse_command_payload pf pm "repeat_set" s))
       | .error e => .handlerFailed "repeat_set"
            (.withPayload (parse_command_payload pf pm "repeat_set" s)) e) := rfl
  rw [e1, hparse]
  cases h (.withPayload (.repeatVal none)) <;> rfl

/-- Witness for C4's amended theorem at the concrete payload "bogus". -/
theorem claim_C4_witness :
    RepeatMode.ofString "bogus" = none ∧
    invocationOf (command_callback_handler (fun _ => none) (fun _ => none)
        (singleCallback "repeat_set" (fun _ => Except.ok ()))
        "hmd/media_player/p/repeat_set" (some "bogus")) =
      some (.withPayload (.repeatVal none)) :=
  claim_C4_amended_invoked_with_none (fun _ => none) (fun _ => none) "bogus"
    (fun _ => Except.ok ()) (by decide)

/-- C5 (counterexample to the claim as stated): after a successful
`set_duration(100)`, `set_position(150)` succeeds and publishes "150" — it
does not fail with an over-duration condition. -/
theorem claim_C5_counterexample :
    (set_duration (generate_topics "hmd" ⟨"p", none⟩ []) 100).isOk = true ∧
    set_position (generate_topics "hmd" ⟨"p", none⟩ []) 150 =
      .ok (state_helper "150" "hmd/media_player/p/position") := by
  exact ⟨by decide, by decide⟩

/-- C5 (amended): `set_position(p)` fails with an invalid-argument error and
publishes nothing when p < 0, and succeeds, publishing str(p) to the position
topic, for every p ≥ 0 — the media_player.py variant stores no duration, so a
prior `set_duration(d)` (which itself succeeds for every d ≥ 0) never
constrains `set_position`, even when p > d. -/
theorem claim_C5_amended_position (t : List (String × String)) (d p : Int) :
    (p < 0 →
      set_position t p = .error (.valueError "Position must be non-negative")) ∧
    (0 ≤ p →
      set_position t p = .ok (state_helper (toString p) (getTopic t "position"))) ∧
    (0 ≤ d → 0 ≤ p → (set_duration t d).isOk = true ∧
      set_position t p = .ok (state_helper (toString p) (getTopic t "position"))) := by
  refine ⟨?_, ?_, ?_⟩
  · intro h
    unfold set_position
    rw [if_pos h]
  · intro h
    unfold set_position
    rw [if_neg (not_lt.2 h)]
  · intro hd hp
    constructor
    · unfold set_duration
      rw [if_neg (not_lt.2 hd)]
      rfl
    · unfold set_position
      rw [if_neg (not_lt.2 hp)]

/-- Witness for C5's amended theorem: duration 100 then position 150. -/
theorem claim_C5_witness :
    (set_duration (generate_topics "hmd" ⟨"p", none⟩ []) 100).isOk = true ∧
    set_position (generate_topics "hmd" ⟨"p", none⟩ []) 150 =
      .ok (state_helper (toString (150 : Int))
            (getTopic (generate_topics "hmd" ⟨"p", none⟩ []) "position")) :=
  (claim_C5_amended_position (generate_topics "hmd" ⟨"p", none⟩ []) 100 150).2.2
    (by norm_num) (by norm_num)

/-- C6: the dispatcher is total over inbound messages — a payload that fails
UTF-8 decoding yields the logged-and-dropped outcome, a command with no
registered callback yields the logged-warning outcome without invoking
anything, and a callback that raises has its exception caught and recorded,
never propagated; in every case a `DispatchResult` is returned, so the
transport callback never sees an exception. -/
theorem claim_C6_dispatch_total_safe (pf : String → Option ℚ)
    (pm : String → Option PlayMediaPayload) (cb : String → Option Handler)
    (topic payload : String) :
    (command_callback_handler pf pm cb topic none = .decodeError) ∧
    (cb (lastSegment topic) = none →
      command_callback_handler pf pm cb topic (some payload) =
        .noCallback (lastSegment topic)) ∧
    (∀ (h : Handler) (e : String), cb (lastSegment topic) = some h →
      (∀ inv, h inv = .error e) →
      ∃ inv, command_callback_handler pf pm cb topic (some payload) =
        .handlerFailed (lastSegment topic) inv e) := by
  refine ⟨rfl, ?_, ?_⟩
  · intro hnone
    simp [command_callback_handler, hnone]
  · intro h e hsome hthrow
    by_cases hc : lastSegment topic ∈ simpleCommands
    · exact ⟨.simple,
        by simp [command_callback_handler, hsome, hc, hthrow .simple]⟩
    · exact ⟨.withPayload (parse_command_payload pf pm (lastSegment topic) payload),
        by simp [command_callback_handler, hsome, hc, hthrow]⟩

/-- Witness for C6 at concrete messages: missing decode, missing callback,
and a callback that always raises. -/
theorem claim_C6_witness :
    command_callback_handler (fun _ => none) (fun _ => none) (fun _ => none)
      "t/play" none = .decodeError ∧
    command_callback_handler (fun _ => none) (fun _ => none) (fun _ => none)
      "t/play" (some "PLAY") = .noCallback (lastSegment "t/play") ∧
    (∃ inv, command_callback_handler (fun _ => none) (fun _ => none)
        (singleCallback "play" (fun _ => Except.error "boom"))
        "t/play" (some "PLAY") = .handlerFailed (lastSegment "t/play") inv "boom") := by
  have h1 := claim_C6_dispatch_total_safe (fun _ => none) (fun _ => none)
    (fun _ => none) "t/play" "PLAY"
  have h2 := claim_C6_dispatch_total_safe (fun _ => none) (fun _ => none)
    (singleCallback "play" (fun _ => Except.error "boom")) "t/play" "PLAY"
  exact ⟨h1.1, h1.2.1 rfl, h2.2.2 _ "boom" rfl (fun _ => rfl)⟩

/-- C7: `set_volume(v)` publishes the stringified value to the volume topic
for every v in the closed interval [0, 1] and fails with an invalid-argument
error, publishing nothing, for every v outside it. -/
theorem claim_C7_volume_bounds (fstr : ℚ → String) (t : List (String × String))
    (v : ℚ) :
    (0 ≤ v ∧ v ≤ 1 →
      set_volume fstr t v = .ok (state_helper (fstr v) (getTopic t "volume"))) ∧
    (¬ (0 ≤ v ∧ v ≤ 1) →
      set_volume fstr t v =
        .error (.valueError "Volume must be between 0.0 and 1.0")) := by
  constructor
  · intro h
    unfold set_volume
    rw [if_neg (not_not.2 h)]
  · intro h
    unfold set_volume
    rw [if_pos h]

/-- Witness for C7: both boundaries succeed; values just outside fail. -/
theorem claim_C7_witness :
    set_volume (fun _ => "v") [] 0 = .ok (state_helper "v" (getTopic [] "volume")) ∧
    set_volume (fun _ => "v") [] 1 = .ok (state_helper "v" (getTopic [] "volume")) ∧
    set_volume (fun _ => "v") [] (-1 / 10000) =
      .error (.valueError "Volume must be between 0.0 and 1.0") ∧
    set_volume (fun _ => "v") [] (10001 / 10000) =
      .error (.valueError "Volume must be between 0.0 and 1.0") :=
  ⟨(claim_C7_volume_bounds (fun _ => "v") [] 0).1 (by norm_num),
   (claim_C7_volume_bounds (fun _ => "v") [] 1).1 (by norm_num),
   (claim_C7_volume_bounds (fun _ => "v") [] (-1 / 10000)).2 (by norm_num),
   (claim_C7_volume_bounds (fun _ => "v") [] (10001 / 10000)).2 (by norm_num)⟩

/-- C8: every shuffle_set and volume_mute payload decodes to a boolean that is
true exactly when the payload case-insensitively equals "ON"; no payload is
rejected, and the handler always receives the decoded boolean. -/
theorem claim_C8_boolean_payload (pf : String → Option ℚ)
    (pm : String → Option PlayMediaPayload) (s : String) (h : Handler) :
    parse_command_payload pf pm "shuffle_set" s =
      .boolVal (eqCaseInsensitive s "ON") ∧
    parse_command_payload pf pm "volume_mute" s =
      .boolVal (eqCaseInsensitive s "ON") ∧
    invocationOf (command_callback_handler pf pm (singleCallback "shuffle_set" h)
        "hmd/media_player/p/shuffle_set" (some s)) =
      some (.withPayload (.boolVal (eqCaseInsensitive s "ON"))) := by
  have hsh : parse_command_payload pf pm "shuffle_set" s =
      .boolVal (eqCaseInsensitive s "ON") := by
    unfold parse_command_payload
    rw [if_neg (by decide), if_pos (Or.inl rfl)]
    rfl
  have hvm : parse_command_payload pf pm "volume_mute" s =
      .boolVal (eqCaseInsensitive s "ON") := by
    unfold parse_command_payload
    rw [if_neg (by decide), if_pos (Or.inr rfl)]
    rfl
  refine ⟨hsh, hvm, ?_⟩
  have e1 : command_callback_handler pf pm (singleCallback "shuffle_set" h)
      "hmd/media_player/p/shuffle_set" (some s) =
      (match h (.withPayload (parse_command_payload pf pm "shuffle_set" s)) with
       | .ok _ => .invoked "shuffle_set"
            (.withPayload (parse_command_payload pf pm "shuffle_set" s))
       | .error e => .handlerFailed "shuffle_set"
            (.withPayload (parse_command_payload pf pm "shuffle_set" s)) e) := rfl
  rw [e1, hsh]
  cases h (.withPayload (.boolVal (eqCaseInsensitive s "ON"))) <;> rfl

/-- C9: when the shuffle_set (resp. repeat_set) callback was never registered,
the corresponding command topic is never derived and `set_shuffle`
(resp. `set_repeat`) fails with the runtime "not supported" error; when
repeat_set is enabled, `set_repeat` still rejects any mode outside
{off, all, one} with the distinct invalid-value error kind. -/
theorem claim_C9_capability_vs_value (pfx : String) (e : MediaPlayerInfo)
    (C : List String) (b : Bool) (r : String) :
    ("shuffle_set" ∉ C →
      set_shuffle (generate_topics pfx e C) b =
        .error (.runtimeError "Player does not support shuffle control")) ∧
    ("repeat_set" ∉ C →
      set_repeat (generate_topics pfx e C) r =
        .error (.runtimeError "Player does not support repeat control")) ∧
    ("repeat_set" ∈ C → r ∉ (["off", "all", "one"] : List String) →
      set_repeat (generate_topics pfx e C) r =
        .error (.valueError "Invalid repeat mode")) ∧
    (∀ m1 m2 : String, SetError.runtimeError m1 ≠ SetError.valueError m2) := by
  have hsh : "shuffle_set" ∈ keysOf (generate_topics pfx e C) ↔
      "shuffle_set" ∈ C := by
    rw [mem_keysOf_generate_topics]
    constructor
    · rintro (⟨_, hm⟩ | hm)
      · exact hm
      · exact absurd hm (by decide)
    · intro hm
      exact Or.inl ⟨by decide, hm⟩
  have hrp : "repeat_set" ∈ keysOf (generate_topics pfx e C) ↔
      "repeat_set" ∈ C := by
    rw [mem_keysOf_generate_topics]
    constructor
    · rintro (⟨_, hm⟩ | hm)
      · exact hm
      · exact absurd hm (by decide)
    · intro hm
      exact Or.inl ⟨by decide, hm⟩
  refine ⟨?_, ?_, ?_, fun m1 m2 hne => SetError.noConfusion hne⟩
  · intro hb
    unfold set_shuffle
    rw [if_pos (fun hmem => hb (hsh.1 hmem))]
  · intro hb
    unfold set_repeat
    rw [if_pos (fun hmem => hb (hrp.1 hmem))]
  · intro hmem hr
    unfold set_repeat
    rw [if_neg (not_not.2 (hrp.2 hmem)), if_pos hr]

/-- Witness for C9: a player with no callbacks rejects shuffle and repeat as
unsupported; one with a repeat_set callback rejects the mode "bogus" as an
invalid value. -/
theorem claim_C9_witness :
    set_shuffle (generate_topics "hmd" ⟨"p", none⟩ []) true =
      .error (.runtimeError "Player does not support shuffle control") ∧
    set_repeat (generate_topics "hmd" ⟨"p", none⟩ []) "all" =
      .error (.runtimeError "Player does not support repeat control") ∧
    set_repeat (generate_topics "hmd" ⟨"p", none⟩ ["repeat_set"]) "bogus" =
      .error (.valueError "Invalid repeat mode") := by
  have h1 := claim_C9_capability_vs_value "hmd" ⟨"p", none⟩ [] true "all"
  have h2 := claim_C9_capability_vs_value "hmd" ⟨"p", none⟩ ["repeat_set"] true
    "bogus"
  exact ⟨h1.1 (by decide), h1.2.1 (by decide),
         h2.2.2.1 (by decide) (by decide)⟩

/-- C10: `set_muted`, `set_shuffle` and `set_repeat` never publish anything —
whatever the topic dict and arguments, and whether they succeed or raise, the
list of publishes they perform is empty. -/
theorem claim_C10_no_publish (t : List (String × String)) (b m : Bool)
    (r : String) :
    set_muted m = ([] : List Publish) ∧
    publishesOf (set_shuffle t b) = [] ∧
    publishesOf (set_repeat t r) = [] := by
  refine ⟨rfl, ?_, ?_⟩
  · unfold set_shuffle
    split
    · rfl
    · rfl
  · unfold set_repeat
    split
    · rfl
    · split
      · rfl
      · rfl

end HaMqtt
